import Mathlib

/-!
Verification development for the Selfbook profile-page application.

The TypeScript sources are shallowly embedded as executable Lean
definitions:

* the POST create-profile route handler (app/api/profile/route.ts),
* the signup page's `handleSignup` routine,
* the memoized backend client accessor `getSupabaseClient`,
* the dashboard page's `saveSection` and `uploadAvatar` routines and
  the `text_list` editor's join/split behaviour,
* the public `ProfileCard` renderer.

External services (database, auth, storage, fetch) are modelled by
explicit outcome parameters; the database is a list of rows, and the
PostgREST `.single()` modifier returns a row exactly when the filter
matches exactly one row.  JS string semantics (falsiness of `""` and
`undefined`, `split`/`join` on a one-character separator, ASCII
`toLowerCase`) are modelled by the `js*` helpers below.
-/

/-! ## JS string and option primitives -/

/-- JS falsiness of a possibly-absent string: `undefined` and `""` are falsy. -/
def jsFalsyOpt : Option String → Bool
  | none => true
  | some s => s.data.isEmpty

/-- JS `a || b` where `a` is a possibly-absent string and `b` a string
(the pattern `display_name || username`). -/
def jsOrStr (a : Option String) (b : String) : String :=
  match a with
  | none => b
  | some s => if s.data.isEmpty then b else s

/-- JS `String.prototype.toLowerCase` (ASCII range, which covers every
username the application constructs). -/
def jsToLower (s : String) : String :=
  String.mk (s.data.map Char.toLower)

/-- JS `String.prototype.trim`: drop leading and trailing whitespace. -/
def jsTrim (s : String) : String :=
  String.mk (((s.data.dropWhile Char.isWhitespace).reverse.dropWhile Char.isWhitespace).reverse)

/-- JS `a || b` on two possibly-absent strings (the pattern
`user?.id || user_id`). -/
def jsOrOpt (a b : Option String) : Option String :=
  if jsFalsyOpt a then b else a

/-- JS `String.prototype.split` with a one-character separator. -/
def jsSplitChar (sep : Char) (s : String) : List String :=
  (s.data.splitOn sep).map String.mk

/-- JS `Array.prototype.join` with a one-character separator. -/
def jsJoinChar (sep : Char) (xs : List String) : String :=
  String.mk (List.intercalate [sep] (xs.map String.data))

/-- The `text_list` editor's line filter: `line.trim().length > 0`. -/
def keepLine (line : String) : Bool :=
  decide ((jsTrim line).length > 0)

/-- The textarea value for a `text_list` draft: `items.join('\n')`. -/
def textListValue (items : List String) : String :=
  jsJoinChar '\n' items

/-- The `text_list` editor's `onChange`:
`value.split('\n').filter(line => line.trim().length > 0)`. -/
def textListOnChange (value : String) : List String :=
  (jsSplitChar '\n' value).filter keepLine

/-- The signup regex `/^[a-zA-Z0-9_]+$/` on a single character. -/
def isWordChar (c : Char) : Bool :=
  (('A' ≤ c && c ≤ 'Z') || ('a' ≤ c && c ≤ 'z') || ('0' ≤ c && c ≤ '9') || c == '_')

/-- JS `/^[a-zA-Z0-9_]+$/.test(s)`: nonempty and all characters word characters. -/
def wordRegexTest (s : String) : Bool :=
  !s.data.isEmpty && s.data.all isWordChar

/-! ## The profile database and PostgREST-style queries -/

/-- A row of the `profiles` table (the fields the route handler touches). -/
structure ProfileRow where
  id : Nat
  user_id : String
  username : String
  display_name : String
deriving DecidableEq

/-- `.select(...).eq(col, v).single()`: data is returned exactly when the
filter matches exactly one row; with zero or several matches PostgREST
reports an error and the handler sees `data = null`. -/
def singleQuery (p : ProfileRow → Bool) (db : List ProfileRow) : Option ProfileRow :=
  match db.filter p with
  | [r] => some r
  | _ => none

/-! ## POST create-profile route handler -/

/-- The request body `{username, display_name?, user_id?}`; absent JSON
fields are `none`. -/
structure PostReq where
  username : Option String
  display_name : Option String
  user_id : Option String
deriving DecidableEq

/-- Outcome of the `create_profile_for_user` RPC call: a data/error pair,
or the call itself throwing. -/
inductive RpcOutcome where
  | ok (data : Option Nat)
  | rpcErr (msg : String)
  | thrown (msg : String)
deriving DecidableEq

/-- The JSON responses the POST handler can produce.  `createdRpc` echoes
the raw body fields `{id: profileData, username, display_name}`;
`createdRow` is the row returned by the fallback insert's `.select().single()`. -/
inductive PostResponse where
  | err (status : Nat) (msg : String)
  | createdRpc (id : Nat) (username : String) (display_name : Option String)
  | createdRow (row : ProfileRow)
deriving DecidableEq

/-- HTTP status of a response (`createdRpc` and `createdRow` are both 201). -/
def PostResponse.status : PostResponse → Nat
  | .err s _ => s
  | .createdRpc _ _ _ => 201
  | .createdRow _ => 201

/-- The argument record shared by the RPC call and the fallback insert:
`{user_id, username: username.toLowerCase(), display_name: display_name || username}`. -/
structure InsertArgs where
  user_id : String
  username : String
  display_name : String
deriving DecidableEq

/-- Result of the POST handler together with a trace of the creation
calls it issued. -/
structure PostOut where
  resp : PostResponse
  rpcCalls : List InsertArgs
  inserts : List InsertArgs
deriving DecidableEq

/-- `const currentUserId = user?.id || user_id` followed by the
`if (!currentUserId)` guard: the resolved identity, if any. -/
def resolveUserId (session : Option String) (bodyUid : Option String) : Option String :=
  let v := jsOrOpt session bodyUid
  if jsFalsyOpt v then none else v

/-- The POST create-profile handler.  `db` is the `profiles` table,
`session` the authenticated user's id (if a session exists), `rpc` the
environment's response to the RPC call, and `ins` the environment's
response to the fallback insert (`Except.ok` carries the new row id). -/
def postCreateProfile (db : List ProfileRow) (session : Option String) (req : PostReq)
    (rpc : RpcOutcome) (ins : Except String Nat) : PostOut :=
  if jsFalsyOpt req.username then
    ⟨.err 400 "Username is required", [], []⟩
  else
    let username := req.username.getD ""
    match resolveUserId session req.user_id with
    | none => ⟨.err 401 "Unauthorized", [], []⟩
    | some uid =>
      if (singleQuery (fun r => r.username == jsToLower username) db).isSome then
        ⟨.err 400 "Username is already taken", [], []⟩
      else if (singleQuery (fun r => r.user_id == uid) db).isSome then
        ⟨.err 400 "Profile already exists", [], []⟩
      else
        let args : InsertArgs := ⟨uid, jsToLower username, jsOrStr req.display_name username⟩
        match rpc with
        | .ok (some pid) => ⟨.createdRpc pid username req.display_name, [args], []⟩
        | _ =>
          match ins with
          | .error m => ⟨.err 500 m, [args], [args]⟩
          | .ok newId =>
            ⟨.createdRow ⟨newId, args.user_id, args.username, args.display_name⟩,
              [args], [args]⟩

/-! ## Signup page handler -/

/-- Network effects the signup handler can issue, in order. -/
inductive Effect where
  | dbQuery
  | authSignUp
  | rpcCall
  | apiFetch
deriving DecidableEq

/-- Outcome of `supabase.auth.signUp`: an auth error, or auth data whose
`user` may be null and whose `session` may be null. -/
inductive AuthOutcome where
  | authErr (msg : String)
  | authOk (user : Option String) (session : Bool)
deriving DecidableEq

/-- Outcome of the `/api/profile` fetch fallback: `response.ok`, a non-ok
response whose JSON may carry an `error` string, or the fetch throwing. -/
inductive ApiOutcome where
  | fetchOk
  | fetchNotOk (errMsg : Option String)
  | fetchThrew
deriving DecidableEq

/-- Environment responses consumed by `handleSignup`, one per await. -/
structure SignupEnv where
  db : List ProfileRow
  auth : AuthOutcome
  rpc : RpcOutcome
  api : ApiOutcome
deriving DecidableEq

/-- Result of `handleSignup`: an early stop via `setError(msg)`, or the
final redirect to the dashboard. -/
inductive SignupOutcome where
  | stop (msg : String)
  | redirect
deriving DecidableEq

/-- The tail of `handleSignup` after profile creation: the email
confirmation message when no session exists, else the redirect. -/
def finishSignup (session : Bool) (effs : List Effect) : SignupOutcome × List Effect :=
  if !session then
    (.stop "Account created! Please check your email to confirm your account, then log in.",
      effs)
  else
    (.redirect, effs)

/-- The signup page's `handleSignup`, with its network effects traced in
order.  Validation happens before any effect. -/
def handleSignup (username : String) (env : SignupEnv) : SignupOutcome × List Effect :=
  if username.length < 3 || username.length > 20 then
    (.stop "Username must be 3-20 characters", [])
  else if !wordRegexTest username then
    (.stop "Username can only contain letters, numbers, and underscores", [])
  else
    match singleQuery (fun r => r.username == jsToLower username) env.db with
    | some _ => (.stop "Username is already taken", [.dbQuery])
    | none =>
      match env.auth with
      | .authErr m => (.stop m, [.dbQuery, .authSignUp])
      | .authOk none _ =>
        (.stop "Failed to create user account", [.dbQuery, .authSignUp])
      | .authOk (some _) session =>
        let profileCreated : Bool :=
          match env.rpc with
          | .ok (some _) => true
          | _ => false
        if profileCreated then
          finishSignup session [.dbQuery, .authSignUp, .rpcCall]
        else
          match env.api with
          | .fetchOk => finishSignup session [.dbQuery, .authSignUp, .rpcCall, .apiFetch]
          | .fetchNotOk em =>
            (.stop ("Profile creation failed: " ++ jsOrStr em "Unknown error"),
              [.dbQuery, .authSignUp, .rpcCall, .apiFetch])
          | .fetchThrew =>
            (.stop "Failed to create profile. Please try again or contact support.",
              [.dbQuery, .authSignUp, .rpcCall, .apiFetch])

/-! ## Backend client accessor -/

/-- The two configuration values read from the process environment. -/
structure ClientEnv where
  url : Option String
  key : Option String
deriving DecidableEq

/-- A constructed backend client, identified by its configuration. -/
structure Client where
  url : String
  key : String
deriving DecidableEq

/-- The module-level `supabaseClient` cell. -/
structure ClientState where
  cached : Option Client
deriving DecidableEq

/-- `getSupabaseClient`: return the memoized handle if present; otherwise
read both configuration values, throw a configuration error if either is
missing (falsy), else construct, memoize and return the client. -/
def getSupabaseClient (env : ClientEnv) (st : ClientState) :
    Except String Client × ClientState :=
  match st.cached with
  | some c => (.ok c, st)
  | none =>
    match env.url, env.key with
    | some u, some k =>
      if u.data.isEmpty || k.data.isEmpty then
        (.error "Missing Supabase environment variables", st)
      else
        (.ok ⟨u, k⟩, ⟨some ⟨u, k⟩⟩)
    | _, _ => (.error "Missing Supabase environment variables", st)

/-! ## Dashboard page: sections, drafts, saveSection, uploadAvatar -/

/-- The typed content payload of a section, keyed by its type tag:
`text_list` items, `links` entries `{title, url}`, `gallery` images
`{url, caption?}`. -/
inductive Content where
  | textList (items : List String)
  | links (entries : List (String × String))
  | gallery (images : List (String × Option String))
deriving DecidableEq

/-- The per-type shape normalization applied when seeding drafts
(`content?.items || []` and its analogues for the other tags). -/
def normalizeContent : Content → Content
  | .textList items => .textList items
  | .links entries => .links entries
  | .gallery images => .gallery images

/-- A row of the `sections` table.  `visible` is nullable in the store
(the dashboard reads it as `s.visible ?? true`). -/
structure SectionRow where
  id : String
  profile_id : String
  title : String
  stype : String
  content : Content
  visible : Option Bool
  position : Nat
  updated_at : Nat
deriving DecidableEq

/-- A draft record in `sectionEdits`: `{title, content, visible}`. -/
structure Draft where
  title : String
  content : Content
  visible : Bool
deriving DecidableEq

/-- A row of the `profiles` table as the dashboard sees it. -/
structure DProfile where
  id : String
  avatar_url : Option String
  banner_url : Option String
  updated_at : Nat
deriving DecidableEq

/-- The dashboard component's state together with the backing stores and
the record of `alert` dialogs shown to the user. -/
structure DashState where
  profileId : String
  profilesDb : List DProfile
  sectionsDb : List SectionRow
  profile : Option DProfile
  avatarUrl : String
  sections : List SectionRow
  sectionEdits : List (String × Draft)
  savingSectionId : Option String
  uploadingAvatar : Bool
  alerts : List String
deriving DecidableEq

/-- Stable insertion of a row into a list sorted by ascending position. -/
def insertByPos (r : SectionRow) : List SectionRow → List SectionRow
  | [] => [r]
  | x :: xs => if r.position < x.position then r :: x :: xs else x :: insertByPos r xs

/-- Stable sort by ascending position (the `.order('position')` modifier). -/
def sortByPos : List SectionRow → List SectionRow
  | [] => []
  | x :: xs => insertByPos x (sortByPos xs)

/-- `.select('*').eq('profile_id', pid).order('position')`. -/
def loadSections (pid : String) (db : List SectionRow) : List SectionRow :=
  sortByPos (db.filter (fun r => r.profile_id == pid))

/-- Seeding of `sectionEdits` from loaded rows: per-type content
normalization and `visible: s.visible ?? true`. -/
def reseedEdits (rows : List SectionRow) : List (String × Draft) :=
  rows.map (fun s => (s.id, ⟨s.title, normalizeContent s.content, s.visible.getD true⟩))

/-- The section- and profile-loading effect of `loadProfile`: re-read the
profile row, the local avatar/banner URL state, the ordered sections, and
reseed the drafts. -/
def reloadDash (st : DashState) : DashState :=
  let rows := loadSections st.profileId st.sectionsDb
  let prof := st.profilesDb.find? (fun p => p.id == st.profileId)
  { st with
    profile := match prof with | some p => some p | none => st.profile
    avatarUrl := match prof with | some p => p.avatar_url.getD "" | none => st.avatarUrl
    sections := rows
    sectionEdits := reseedEdits rows }

/-- Result of a `saveSection` call: the value `savingSectionId` held while
the store update was in flight, and the final state. -/
structure SaveResult where
  saving_during : Option String
  final : DashState
deriving DecidableEq

/-- `saveSection(id)`: look up the draft (early return if absent), set
`savingSectionId`, issue the update writing `{title, content, visible,
updated_at}` to every row with that id, reload on success, and clear
`savingSectionId` in every outcome.  `updateOk` is the store's response;
on failure the store is unchanged. -/
def saveSection (st : DashState) (id : String) (now : Nat) (updateOk : Bool) : SaveResult :=
  match st.sectionEdits.lookup id with
  | none => ⟨st.savingSectionId, st⟩
  | some d =>
    let st1 := { st with savingSectionId := some id }
    if updateOk then
      let newDb := st1.sectionsDb.map (fun r =>
        if r.id == id then
          { r with title := d.title, content := d.content,
                   visible := some d.visible, updated_at := now }
        else r)
      let st2 := reloadDash { st1 with sectionsDb := newDb }
      ⟨some id, { st2 with savingSectionId := none }⟩
    else
      ⟨some id, { st1 with savingSectionId := none }⟩

/-- `uploadAvatar(file)`: derive the storage path from the profile id and
the file extension, upload with upsert, and on failure alert the user; on
success set the local URL, persist it with a timestamp, and reload.
`upl` is the storage layer's outcome (`Except.error` covers both an error
response and a thrown exception, carrying the message the handler
formats); `pubUrl` computes the storage's public URL for a path;
`updOk` is the store's response to the persisting update. -/
def uploadAvatar (st : DashState) (fileName : String) (upl : Except String Unit)
    (pubUrl : String → String) (updOk : Bool) (now : Nat) : DashState :=
  match st.profile with
  | none => st
  | some prof =>
    let st0 := { st with uploadingAvatar := true }
    let ext := ((jsSplitChar '.' fileName).getLast?).getD ""
    let path := "avatars/" ++ prof.id ++ "-avatar." ++ ext
    match upl with
    | .error e =>
      { st0 with
        alerts := st0.alerts ++ ["Failed to upload avatar: " ++ e]
        uploadingAvatar := false }
    | .ok _ =>
      let newUrl := pubUrl path
      let st1 := { st0 with avatarUrl := newUrl }
      let newDb :=
        if updOk then
          st1.profilesDb.map (fun p =>
            if p.id == prof.id then { p with avatar_url := some newUrl, updated_at := now }
            else p)
        else st1.profilesDb
      let st2 := reloadDash { st1 with profilesDb := newDb }
      { st2 with uploadingAvatar := false }

/-! ## Public profile renderer -/

/-- The public profile row as `ProfileCard` receives it. -/
structure PubProfile where
  username : String
  display_name : String
  bio : Option String
  avatar_url : Option String
  banner_url : Option String
deriving DecidableEq

/-- What `ProfileCard` renders: the header fields, one navigation button
per section `(id, title)`, the active section row handed to
`renderSection`, and the empty-state note. -/
structure CardView where
  headerName : String
  headerUsername : String
  navButtons : List (String × String)
  activeBody : Option SectionRow
  emptyNote : Bool
deriving DecidableEq

/-- The initial `activeSection` state: `sections[0]?.id || ''`. -/
def initActiveSection (sections : List SectionRow) : String :=
  match sections.head? with
  | some s => s.id
  | none => ""

/-- `ProfileCard`: render the header, and when sections exist render one
button per section and the section found by the active id; with no
sections render the empty note. -/
def profileCard (p : PubProfile) (sections : List SectionRow) (active : String) : CardView :=
  if sections.length > 0 then
    { headerName := p.display_name
      headerUsername := p.username
      navButtons := sections.map (fun s => (s.id, s.title))
      activeBody := sections.find? (fun s => s.id == active)
      emptyNote := false }
  else
    { headerName := p.display_name
      headerUsername := p.username
      navButtons := []
      activeBody := none
      emptyNote := true }

/-! ## Helper lemmas -/

/-- Rebuilding a string from its character data is the identity. -/
theorem mk_data_eq (s : String) : String.mk s.data = s := by
  cases s
  rfl

/-- A nonempty string has nonempty character data. -/
theorem data_isEmpty_false_of_ne (s : String) (h : s ≠ "") : s.data.isEmpty = false := by
  cases s with
  | mk l =>
    cases l with
    | nil => exact absurd rfl h
    | cons c cs => rfl

/-- JS `split` is a left inverse of JS `join` on nonempty lists of strings
that avoid the separator character. -/
theorem jsSplit_jsJoin (sep : Char) (xs : List String)
    (hx : ∀ s ∈ xs, sep ∉ s.data) (hne : xs ≠ []) :
    jsSplitChar sep (jsJoinChar sep xs) = xs := by
  unfold jsSplitChar jsJoinChar
  have hdata : (String.mk (List.intercalate [sep] (xs.map String.data))).data
      = List.intercalate [sep] (xs.map String.data) := rfl
  rw [hdata]
  rw [List.splitOn_intercalate _ sep
    (by
      intro l hl
      rcases List.mem_map.mp hl with ⟨s, hs, hlv⟩
      subst hlv
      exact hx s hs)
    (by
      intro hmap
      exact hne (List.map_eq_nil_iff.mp hmap))]
  rw [List.map_map]
  have hcomp : (String.mk ∘ String.data) = id := funext (fun s => mk_data_eq s)
  rw [hcomp, List.map_id]

/-- In a list of profile rows with pairwise distinct usernames, filtering
for a username held by a member yields exactly that member. -/
theorem filter_username_eq_singleton (l : List ProfileRow) (r : ProfileRow) (c : String)
    (hpw : l.Pairwise (fun a b => a.username ≠ b.username))
    (hr : r ∈ l) (hrc : r.username = c) :
    l.filter (fun x => x.username == c) = [r] := by
  induction l with
  | nil => exact absurd hr (List.not_mem_nil r)
  | cons a t ih =>
    rcases List.pairwise_cons.mp hpw with ⟨hhead, htail⟩
    rcases List.mem_cons.mp hr with hra | hrt
    · subst hra
      have hrest : t.filter (fun x => x.username == c) = [] := by
        refine List.filter_eq_nil_iff.mpr (fun x hx hxc => ?_)
        exact hhead x hx (hrc.trans (beq_iff_eq.mp hxc).symm)
      have hpa : (r.username == c) = true := beq_iff_eq.mpr hrc
      simp [List.filter_cons, hpa, hrest]
    · have hpa : (a.username == c) = false := by
        refine beq_eq_false_iff_ne.mpr ?_
        intro hac
        exact hhead r hrt (hac.trans hrc.symm)
      simp [List.filter_cons, hpa, ih htail hrt]

/-- In a list of section rows with pairwise distinct ids, `find?` for an
id held by a member yields that member. -/
theorem find_section_first (l : List SectionRow) (s : SectionRow) (active : String)
    (hpw : l.Pairwise (fun a b => a.id ≠ b.id)) (hs : s ∈ l) (hact : s.id = active) :
    l.find? (fun x => x.id == active) = some s := by
  induction l with
  | nil => exact absurd hs (List.not_mem_nil s)
  | cons a t ih =>
    rcases List.pairwise_cons.mp hpw with ⟨hhead, htail⟩
    rcases List.mem_cons.mp hs with hsa | hst
    · subst hsa
      have hpa : (s.id == active) = true := beq_iff_eq.mpr hact
      simp [List.find?_cons, hpa]
    · have hpa : (a.id == active) = false := by
        refine beq_eq_false_iff_ne.mpr ?_
        intro hac
        exact hhead s hst (hac.trans hact.symm)
      simp [List.find?_cons, hpa, ih htail hst]

/-! ## Claim C1 -/

/-- Claim C1: whenever the privileged RPC creation call fails for any
reason (error, no data, or a thrown exception), the POST handler attempts
the fallback direct insert exactly once, with exactly the same normalized
fields as the RPC call (lowercased username, display name defaulted to
the raw username), and any error from that insert is returned as a 500
with the underlying message. -/
theorem c1_fallbackInsert (db : List ProfileRow) (session uidOpt dn : Option String)
    (cand uid : String) (rpc : RpcOutcome) (ins : Except String Nat)
    (hc : cand ≠ "")
    (hu : resolveUserId session uidOpt = some uid)
    (hq1 : singleQuery (fun r => r.username == jsToLower cand) db = none)
    (hq2 : singleQuery (fun r => r.user_id == uid) db = none)
    (hrpc : ∀ pid, rpc ≠ .ok (some pid)) :
    (postCreateProfile db session ⟨some cand, dn, uidOpt⟩ rpc ins).rpcCalls
        = [⟨uid, jsToLower cand, jsOrStr dn cand⟩]
    ∧ (postCreateProfile db session ⟨some cand, dn, uidOpt⟩ rpc ins).inserts
        = [⟨uid, jsToLower cand, jsOrStr dn cand⟩]
    ∧ (∀ m, ins = .error m →
        (postCreateProfile db session ⟨some cand, dn, uidOpt⟩ rpc ins).resp = .err 500 m) := by
  have hfals : jsFalsyOpt (some cand) = false := data_isEmpty_false_of_ne cand hc
  cases rpc with
  | ok data =>
    cases data with
    | some pid => exact absurd rfl (hrpc pid)
    | none =>
      cases ins with
      | error m => simp [postCreateProfile, hfals, hu, hq1, hq2]
      | ok newId => simp [postCreateProfile, hfals, hu, hq1, hq2]
  | rpcErr m0 =>
    cases ins with
    | error m => simp [postCreateProfile, hfals, hu, hq1, hq2]
    | ok newId => simp [postCreateProfile, hfals, hu, hq1, hq2]
  | thrown m0 =>
    cases ins with
    | error m => simp [postCreateProfile, hfals, hu, hq1, hq2]
    | ok newId => simp [postCreateProfile, hfals, hu, hq1, hq2]

/-- Witness for C1 at a concrete input: RPC errors, the insert is
attempted once with the normalized fields, and the insert error surfaces
as a 500. -/
theorem c1_witness :
    (postCreateProfile [] (some "u1") ⟨some "Alice", none, none⟩ (.rpcErr "boom")
        (.error "denied")).rpcCalls = [⟨"u1", jsToLower "Alice", jsOrStr none "Alice"⟩]
    ∧ (postCreateProfile [] (some "u1") ⟨some "Alice", none, none⟩ (.rpcErr "boom")
        (.error "denied")).inserts = [⟨"u1", jsToLower "Alice", jsOrStr none "Alice"⟩]
    ∧ (∀ m, (Except.error "denied" : Except String Nat) = .error m →
        (postCreateProfile [] (some "u1") ⟨some "Alice", none, none⟩ (.rpcErr "boom")
          (.error "denied")).resp = .err 500 m) :=
  c1_fallbackInsert [] (some "u1") none none "Alice" "u1" (.rpcErr "boom") (.error "denied")
    (by decide) rfl rfl rfl (fun pid h => RpcOutcome.noConfusion h)

/-! ## Claim C2 -/

/-- Claim C2, counterexample: on RPC success the handler does not return
the stored record; it echoes the request's raw username ("Alice", not the
normalized "alice") and the raw absent display name (not the defaulted
one). -/
theorem c2_counterexample :
    (postCreateProfile [] (some "u1") ⟨some "Alice", none, none⟩ (.ok (some 7)) (.ok 1)).resp
        = .createdRpc 7 "Alice" none
    ∧ (postCreateProfile [] (some "u1") ⟨some "Alice", none, none⟩ (.ok (some 7)) (.ok 1)).resp
        ≠ .createdRpc 7 (jsToLower "Alice") (some (jsOrStr none "Alice")) := by decide

/-- Claim C2 as amended: when the RPC call succeeds, the handler returns
status 201 with a body holding the RPC-returned id and the request's
username and display_name exactly as supplied, and attempts no insert. -/
theorem c2_amended (db : List ProfileRow) (session uidOpt dn : Option String)
    (cand uid : String) (pid : Nat) (ins : Except String Nat)
    (hc : cand ≠ "")
    (hu : resolveUserId session uidOpt = some uid)
    (hq1 : singleQuery (fun r => r.username == jsToLower cand) db = none)
    (hq2 : singleQuery (fun r => r.user_id == uid) db = none) :
    postCreateProfile db session ⟨some cand, dn, uidOpt⟩ (.ok (some pid)) ins
        = ⟨.createdRpc pid cand dn, [⟨uid, jsToLower cand, jsOrStr dn cand⟩], []⟩
    ∧ (PostResponse.createdRpc pid cand dn).status = 201 := by
  have hfals : jsFalsyOpt (some cand) = false := data_isEmpty_false_of_ne cand hc
  exact ⟨by simp [postCreateProfile, hfals, hu, hq1, hq2], rfl⟩

/-- Witness for the amended C2 at a concrete input. -/
theorem c2_amended_witness :
    postCreateProfile [] (some "u1") ⟨some "Alice", none, none⟩ (.ok (some 7)) (.ok 1)
        = ⟨.createdRpc 7 "Alice" none, [⟨"u1", jsToLower "Alice", jsOrStr none "Alice"⟩], []⟩
    ∧ (PostResponse.createdRpc 7 "Alice" none).status = 201 :=
  c2_amended [] (some "u1") none none "Alice" "u1" 7 (.ok 1) (by decide) rfl rfl rfl

/-! ## Claim C3 -/

/-- Claim C3: every username whose length is outside [3, 20] or that
contains a character outside [A-Za-z0-9_] is rejected by the signup
handler with a validation message before any network call, and length
violations produce the message "Username must be 3-20 characters". -/
theorem c3_signupValidation (username : String) (env : SignupEnv)
    (h : username.length < 3 ∨ 20 < username.length ∨ wordRegexTest username = false) :
    (handleSignup username env).2 = []
    ∧ ∃ msg, (handleSignup username env).1 = .stop msg
        ∧ ((username.length < 3 ∨ 20 < username.length) →
            msg = "Username must be 3-20 characters") := by
  by_cases hlen : (username.length < 3 || username.length > 20) = true
  · refine ⟨by simp [handleSignup, hlen], "Username must be 3-20 characters",
      by simp [handleSignup, hlen], fun _ => rfl⟩
  · have hlen' : ¬(username.length < 3 ∨ 20 < username.length) := by
      simpa [Bool.or_eq_true, decide_eq_true_eq] using hlen
    have hw : wordRegexTest username = false := by
      rcases h with h1 | h2 | h3
      · exact absurd (Or.inl h1) hlen'
      · exact absurd (Or.inr h2) hlen'
      · exact h3
    have hlenf : (username.length < 3 || username.length > 20) = false :=
      Bool.not_eq_true _ ▸ by simpa using hlen
    refine ⟨by simp [handleSignup, hlenf, hw],
      "Username can only contain letters, numbers, and underscores",
      by simp [handleSignup, hlenf, hw], fun hc => absurd hc hlen'⟩

/-- Witness for C3 on the spec's scenario: signup with username "ab". -/
theorem c3_witness :
    (handleSignup "ab" ⟨[], .authOk none false, .ok none, .fetchOk⟩).2 = []
    ∧ ∃ msg, (handleSignup "ab" ⟨[], .authOk none false, .ok none, .fetchOk⟩).1 = .stop msg
        ∧ ((("ab" : String).length < 3 ∨ 20 < ("ab" : String).length) →
            msg = "Username must be 3-20 characters") :=
  c3_signupValidation "ab" ⟨[], .authOk none false, .ok none, .fetchOk⟩ (by decide)

/-! ## Claim C4 -/

/-- Claim C4, counterexample: a list whose single entry is neither blank
nor whitespace-only but contains an embedded newline does not round-trip
through the `text_list` editor; it comes back as two items. -/
theorem c4_counterexample :
    (∀ s ∈ ["a\nb"], keepLine s = true)
    ∧ textListOnChange (textListValue ["a\nb"]) = ["a", "b"]
    ∧ textListOnChange (textListValue ["a\nb"]) ≠ ["a\nb"] := by decide

/-- Claim C4 as amended: for every ordered list of strings with no blank
or whitespace-only entries and no entry containing the newline character,
joining with newline and re-splitting while dropping blank lines yields
back exactly the same ordered list. -/
theorem c4_roundTrip (items : List String)
    (h : ∀ s ∈ items, keepLine s = true ∧ '\n' ∉ s.data) :
    textListOnChange (textListValue items) = items := by
  cases hi : items with
  | nil => rfl
  | cons a rest =>
    subst hi
    unfold textListOnChange textListValue
    rw [jsSplit_jsJoin '\n' (a :: rest) (fun s hs => (h s hs).2) (by simp)]
    exact List.filter_eq_self.mpr (fun s hs => (h s hs).1)

/-- Witness for the amended C4 at a concrete two-item list. -/
theorem c4_roundTrip_witness :
    textListOnChange (textListValue ["alpha", "beta"]) = ["alpha", "beta"] :=
  c4_roundTrip ["alpha", "beta"] (by decide)

/-! ## Claim C5 -/

/-- Claim C5: `saveSection(id)` writes exactly {title, content, visible,
updated timestamp} from the draft for that id to the sections store
(identity, ownership, type and position fields untouched; non-matching
rows untouched), marks that id as saving for the duration of the call and
unmarks it afterward in every outcome, reloads all profile data on
success, and on failure leaves the store and every draft unchanged. -/
theorem c5_saveSection (st : DashState) (id : String) (now : Nat) (ok : Bool) (d : Draft)
    (hd : st.sectionEdits.lookup id = some d) :
    (saveSection st id now ok).saving_during = some id
    ∧ (saveSection st id now ok).final.savingSectionId = none
    ∧ (saveSection st id now ok).final.sectionsDb.length = st.sectionsDb.length
    ∧ (∀ (i : Nat) (old : SectionRow), st.sectionsDb[i]? = some old →
        ∃ new : SectionRow, (saveSection st id now ok).final.sectionsDb[i]? = some new
          ∧ new.id = old.id ∧ new.profile_id = old.profile_id
          ∧ new.stype = old.stype ∧ new.position = old.position
          ∧ (ok = false → new = old)
          ∧ ((old.id == id) = false → new = old)
          ∧ (ok = true → (old.id == id) = true →
              new.title = d.title ∧ new.content = d.content
              ∧ new.visible = some d.visible ∧ new.updated_at = now))
    ∧ (ok = true →
        (saveSection st id now ok).final.sections
            = loadSections st.profileId ((saveSection st id now ok).final.sectionsDb)
        ∧ (saveSection st id now ok).final.sectionEdits
            = reseedEdits ((saveSection st id now ok).final.sections))
    ∧ (ok = false →
        (saveSection st id now ok).final.sectionsDb = st.sectionsDb
        ∧ (saveSection st id now ok).final.sections = st.sections
        ∧ (saveSection st id now ok).final.sectionEdits = st.sectionEdits) := by
  cases ok with
  | true =>
    have hmap : (saveSection st id now true).final.sectionsDb
        = st.sectionsDb.map (fun r =>
            if r.id == id then
              { r with title := d.title, content := d.content,
                       visible := some d.visible, updated_at := now }
            else r) := by
      simp [saveSection, hd, reloadDash]
    refine ⟨by simp [saveSection, hd], by simp [saveSection, hd], ?_, ?_, ?_, ?_⟩
    · rw [hmap, List.length_map]
    · intro i old hold
      rw [hmap, List.getElem?_map, hold]
      by_cases hb : (old.id == id) = true
      · refine ⟨_, rfl, by simp [hb], by simp [hb], by simp [hb], by simp [hb],
          fun hfalse => Bool.noConfusion hfalse,
          fun hbf => absurd hb (by simp [hbf]),
          fun _ _ => by simp [hb]⟩
      · have hb' : (old.id == id) = false := by simpa using hb
        refine ⟨_, rfl, by simp [hb'], by simp [hb'], by simp [hb'], by simp [hb'],
          fun _ => by simp [hb'],
          fun _ => by simp [hb'],
          fun _ hbt => absurd hbt (by simp [hb'])⟩
    · intro _
      constructor
      · rw [hmap]
        simp [saveSection, hd, reloadDash]
      · simp [saveSection, hd, reloadDash]
    · intro hfalse
      exact Bool.noConfusion hfalse
  | false =>
    refine ⟨by simp [saveSection, hd], by simp [saveSection, hd], by simp [saveSection, hd],
      ?_, fun htrue => Bool.noConfusion htrue, ?_⟩
    · intro i old hold
      have hdb : (saveSection st id now false).final.sectionsDb = st.sectionsDb := by
        simp [saveSection, hd]
      rw [hdb, hold]
      exact ⟨old, rfl, rfl, rfl, rfl, rfl, fun _ => rfl, fun _ => rfl,
        fun htrue => Bool.noConfusion htrue⟩
    · intro _
      exact ⟨by simp [saveSection, hd], by simp [saveSection, hd], by simp [saveSection, hd]⟩

/-- Witness for C5 at a concrete one-section dashboard state. -/
theorem c5_witness :
    (saveSection ⟨"p", [], [⟨"s1", "p", "Old", "text_list", .textList ["x"], some true, 0, 0⟩],
        none, "", [⟨"s1", "p", "Old", "text_list", .textList ["x"], some true, 0, 0⟩],
        [("s1", ⟨"New", .textList ["y"], false⟩)], none, false, []⟩ "s1" 5 true).saving_during
      = some "s1"
    ∧ (saveSection ⟨"p", [], [⟨"s1", "p", "Old", "text_list", .textList ["x"], some true, 0, 0⟩],
        none, "", [⟨"s1", "p", "Old", "text_list", .textList ["x"], some true, 0, 0⟩],
        [("s1", ⟨"New", .textList ["y"], false⟩)], none, false, []⟩ "s1" 5
        true).final.savingSectionId = none := by
  have h := c5_saveSection
    ⟨"p", [], [⟨"s1", "p", "Old", "text_list", .textList ["x"], some true, 0, 0⟩],
      none, "", [⟨"s1", "p", "Old", "text_list", .textList ["x"], some true, 0, 0⟩],
      [("s1", ⟨"New", .textList ["y"], false⟩)], none, false, []⟩
    "s1" 5 true ⟨"New", .textList ["y"], false⟩ (by decide)
  exact ⟨h.1, h.2.1⟩

/-! ## Claim C6 -/

/-- Claim C6: username uniqueness at profile creation is case-insensitive.
For a profiles table whose stored usernames are lowercase (as both
creation paths guarantee) and pairwise distinct (the store's unique
constraint), any candidate equal to a stored username up to letter case
is rejected with the 400 "taken" error, and neither creation path is
attempted. -/
theorem c6_caseInsensitive (db : List ProfileRow) (session uidOpt dn : Option String)
    (cand uid : String) (r : ProfileRow) (rpc : RpcOutcome) (ins : Except String Nat)
    (hc : cand ≠ "")
    (hu : resolveUserId session uidOpt = some uid)
    (hlow : ∀ x ∈ db, jsToLower x.username = x.username)
    (hpw : db.Pairwise (fun a b => a.username ≠ b.username))
    (hr : r ∈ db)
    (heq : jsToLower cand = jsToLower r.username) :
    postCreateProfile db session ⟨some cand, dn, uidOpt⟩ rpc ins
        = ⟨.err 400 "Username is already taken", [], []⟩ := by
  have hfals : jsFalsyOpt (some cand) = false := data_isEmpty_false_of_ne cand hc
  have hrc : r.username = jsToLower cand := by
    rw [heq, hlow r hr]
  have hfilter : db.filter (fun x => x.username == jsToLower cand) = [r] :=
    filter_username_eq_singleton db r (jsToLower cand) hpw hr hrc
  have hq : singleQuery (fun x => x.username == jsToLower cand) db = some r := by
    simp [singleQuery, hfilter]
  simp [postCreateProfile, hfals, hu, hq]

/-- Witness for C6 on the spec's scenario: "alice" is stored, "ALICE" is
rejected as taken. -/
theorem c6_witness :
    postCreateProfile [⟨1, "u0", "alice", "Alice"⟩] (some "u9") ⟨some "ALICE", none, none⟩
        (.ok (some 7)) (.ok 2)
      = ⟨.err 400 "Username is already taken", [], []⟩ :=
  c6_caseInsensitive [⟨1, "u0", "alice", "Alice"⟩] (some "u9") none none "ALICE" "u9"
    ⟨1, "u0", "alice", "Alice"⟩ (.ok (some 7)) (.ok 2)
    (by decide) rfl (by decide) (by simp) (by simp) (by decide)

/-! ## Claim C7 -/

/-- Claim C7: `getSupabaseClient` constructs the client at most once per
process and every call returns the same shared handle; if either required
configuration value is missing on first access, it throws the
configuration error and constructs no client (the cache stays empty). -/
theorem c7_clientMemoized (env env2 : ClientEnv) (st : ClientState) :
    (st.cached = none → (jsFalsyOpt env.url || jsFalsyOpt env.key) = true →
        getSupabaseClient env st = (.error "Missing Supabase environment variables", st))
    ∧ (∀ c st1, getSupabaseClient env st = (.ok c, st1) →
        getSupabaseClient env2 st1 = (.ok c, st1)) := by
  constructor
  · intro hc hf
    cases env with
    | mk url key =>
      cases url with
      | none => simp [getSupabaseClient, hc]
      | some u =>
        cases key with
        | none => simp [getSupabaseClient, hc]
        | some k =>
          have hempty : (u.data.isEmpty || k.data.isEmpty) = true := by
            simpa [jsFalsyOpt] using hf
          simp [getSupabaseClient, hc, hempty]
  · intro c st1 h
    cases hcache : st.cached with
    | some c0 =>
      have h0 : getSupabaseClient env st = (.ok c0, st) := by
        simp [getSupabaseClient, hcache]
      rw [h0] at h
      have hc : c0 = c := by
        have := congrArg Prod.fst h
        simpa using this
      have hst : st = st1 := by
        have := congrArg Prod.snd h
        simpa using this
      subst hc
      subst hst
      simp [getSupabaseClient, hcache]
    | none =>
      cases env with
      | mk url key =>
        cases url with
        | none =>
          have h0 : getSupabaseClient ⟨none, key⟩ st
              = (.error "Missing Supabase environment variables", st) := by
            simp [getSupabaseClient, hcache]
          rw [h0] at h
          exact absurd (congrArg Prod.fst h) (by simp)
        | some u =>
          cases key with
          | none =>
            have h0 : getSupabaseClient ⟨some u, none⟩ st
                = (.error "Missing Supabase environment variables", st) := by
              simp [getSupabaseClient, hcache]
            rw [h0] at h
            exact absurd (congrArg Prod.fst h) (by simp)
          | some k =>
            by_cases hempty : (u.data.isEmpty || k.data.isEmpty) = true
            · have h0 : getSupabaseClient ⟨some u, some k⟩ st
                  = (.error "Missing Supabase environment variables", st) := by
                simp [getSupabaseClient, hcache, hempty]
              rw [h0] at h
              exact absurd (congrArg Prod.fst h) (by simp)
            · have hempty' : (u.data.isEmpty || k.data.isEmpty) = false := by
                simpa using hempty
              have h0 : getSupabaseClient ⟨some u, some k⟩ st
                  = (.ok ⟨u, k⟩, ⟨some ⟨u, k⟩⟩) := by
                simp [getSupabaseClient, hcache, hempty']
              rw [h0] at h
              have hc : (⟨u, k⟩ : Client) = c := by
                have := congrArg Prod.fst h
                simpa using this
              have hst : (⟨some ⟨u, k⟩⟩ : ClientState) = st1 := by
                have := congrArg Prod.snd h
                simpa using this
              subst hc
              rw [← hst]
              simp [getSupabaseClient]

/-- Witness for C7: a missing key on an empty cache errors without
constructing a client, and a cached handle is returned unchanged by the
next call whatever its environment. -/
theorem c7_witness :
    getSupabaseClient ⟨none, some "k"⟩ ⟨none⟩
        = (.error "Missing Supabase environment variables", ⟨none⟩)
    ∧ getSupabaseClient ⟨none, none⟩ ⟨some ⟨"u", "k"⟩⟩ = (.ok ⟨"u", "k"⟩, ⟨some ⟨"u", "k"⟩⟩) :=
  ⟨(c7_clientMemoized ⟨none, some "k"⟩ ⟨none, none⟩ ⟨none⟩).1 rfl rfl,
    (c7_clientMemoized ⟨some "u", some "k"⟩ ⟨none, none⟩ ⟨some ⟨"u", "k"⟩⟩).2
      ⟨"u", "k"⟩ ⟨some ⟨"u", "k"⟩⟩ rfl⟩

/-! ## Claim C8 -/

/-- Claim C8: when the avatar upload fails at the storage layer,
`uploadAvatar` surfaces the error to the user as an alert built from the
underlying message and leaves both the local avatar URL state and the
persisted profile store (hence the displayed previous value) unchanged. -/
theorem c8_uploadFailure (st : DashState) (fileName e : String)
    (pubUrl : String → String) (updOk : Bool) (now : Nat) (prof : DProfile)
    (hp : st.profile = some prof) :
    (uploadAvatar st fileName (.error e) pubUrl updOk now).avatarUrl = st.avatarUrl
    ∧ (uploadAvatar st fileName (.error e) pubUrl updOk now).profilesDb = st.profilesDb
    ∧ (uploadAvatar st fileName (.error e) pubUrl updOk now).profile = st.profile
    ∧ (uploadAvatar st fileName (.error e) pubUrl updOk now).sections = st.sections
    ∧ (uploadAvatar st fileName (.error e) pubUrl updOk now).sectionEdits = st.sectionEdits
    ∧ (uploadAvatar st fileName (.error e) pubUrl updOk now).alerts
        = st.alerts ++ ["Failed to upload avatar: " ++ e]
    ∧ (uploadAvatar st fileName (.error e) pubUrl updOk now).uploadingAvatar = false := by
  simp [uploadAvatar, hp]

/-- Witness for C8 at a concrete state holding a previous avatar URL. -/
theorem c8_witness :
    (uploadAvatar ⟨"p1", [⟨"p1", some "old.png", none, 0⟩], [],
        some ⟨"p1", some "old.png", none, 0⟩,
        "old.png", [], [], none, false, []⟩ "pic.jpg" (.error "bucket missing") id true
        9).avatarUrl
      = "old.png"
    ∧ (uploadAvatar ⟨"p1", [⟨"p1", some "old.png", none, 0⟩], [],
        some ⟨"p1", some "old.png", none, 0⟩,
        "old.png", [], [], none, false, []⟩ "pic.jpg" (.error "bucket missing") id true
        9).profilesDb
      = [⟨"p1", some "old.png", none, 0⟩]
    ∧ (uploadAvatar ⟨"p1", [⟨"p1", some "old.png", none, 0⟩], [],
        some ⟨"p1", some "old.png", none, 0⟩,
        "old.png", [], [], none, false, []⟩ "pic.jpg" (.error "bucket missing") id true
        9).alerts
      = ["Failed to upload avatar: " ++ "bucket missing"] := by
  have h := c8_uploadFailure
    ⟨"p1", [⟨"p1", some "old.png", none, 0⟩], [], some ⟨"p1", some "old.png", none, 0⟩,
      "old.png", [], [], none, false, []⟩ "pic.jpg" "bucket missing" id true 9
    ⟨"p1", some "old.png", none, 0⟩ rfl
  exact ⟨h.1, h.2.1, h.2.2.2.2.2.1⟩

/-! ## Claim C9 -/

/-- Claim C9: the public profile renderer ignores the visible flag.  Every
section appears in the navigation (in particular one saved with
visible = false), the rendered output is invariant under arbitrary
changes to the visible flags, and the active section's content is
rendered by id lookup without consulting visibility. -/
theorem c9_ignoresVisibility (p : PubProfile) (sections : List SectionRow) (active : String) :
    (∀ s ∈ sections, (s.id, s.title) ∈ (profileCard p sections active).navButtons)
    ∧ (∀ g : SectionRow → Option Bool,
        (profileCard p (sections.map (fun s => { s with visible := g s })) active).navButtons
          = (profileCard p sections active).navButtons
        ∧ ((profileCard p (sections.map (fun s => { s with visible := g s }))
              active).activeBody).isSome
          = ((profileCard p sections active).activeBody).isSome)
    ∧ (∀ s ∈ sections, s.id = active →
        sections.Pairwise (fun a b => a.id ≠ b.id) →
        (profileCard p sections active).activeBody = some s) := by
  refine ⟨?_, ?_, ?_⟩
  · intro s hs
    have hlen : 0 < sections.length := List.length_pos.mpr (List.ne_nil_of_mem hs)
    simp only [profileCard, hlen, if_pos]
    exact List.mem_map_of_mem (fun s => (s.id, s.title)) hs
  · intro g
    by_cases hl : 0 < sections.length
    · have hl' : 0 < (sections.map (fun s => { s with visible := g s })).length := by
        simpa using hl
      have hcomp : ((fun x : SectionRow => (x.id, x.title)) ∘
          (fun s : SectionRow => { s with visible := g s }))
          = fun x : SectionRow => (x.id, x.title) := rfl
      have hpcomp : ((fun x : SectionRow => x.id == active) ∘
          (fun s : SectionRow => { s with visible := g s }))
          = fun x : SectionRow => x.id == active := rfl
      constructor
      · simp only [profileCard, hl, hl', if_pos, List.map_map, hcomp]
      · simp only [profileCard, hl, hl', if_pos, List.find?_map, hpcomp]
        cases List.find? (fun x : SectionRow => x.id == active) sections <;> rfl
    · have hl0 : sections = [] := by
        cases sections with
        | nil => rfl
        | cons a t => exact absurd (by simp) hl
      subst hl0
      exact ⟨rfl, rfl⟩
  · intro s hs hact hpw
    have hlen : 0 < sections.length := List.length_pos.mpr (List.ne_nil_of_mem hs)
    simp only [profileCard, hlen, if_pos]
    exact find_section_first sections s active hpw hs hact

/-- Witness for C9: a section saved with visible = false still appears in
the navigation and is rendered as the active section. -/
theorem c9_witness :
    ((⟨"s1", "p", "Hidden", "text_list", .textList ["x"], some false, 0, 0⟩ : SectionRow).id,
      (⟨"s1", "p", "Hidden", "text_list", .textList ["x"], some false, 0, 0⟩ :
        SectionRow).title)
      ∈ (profileCard ⟨"bob", "Bob", none, none, none⟩
          [⟨"s1", "p", "Hidden", "text_list", .textList ["x"], some false, 0, 0⟩]
          "s1").navButtons
    ∧ (profileCard ⟨"bob", "Bob", none, none, none⟩
          [⟨"s1", "p", "Hidden", "text_list", .textList ["x"], some false, 0, 0⟩]
          "s1").activeBody
        = some ⟨"s1", "p", "Hidden", "text_list", .textList ["x"], some false, 0, 0⟩ := by
  have h := c9_ignoresVisibility ⟨"bob", "Bob", none, none, none⟩
    [⟨"s1", "p", "Hidden", "text_list", .textList ["x"], some false, 0, 0⟩] "s1"
  exact ⟨h.1 _ (by simp), h.2.2 _ (by simp) rfl (by simp)⟩

/-! ## Claim C10 -/

/-- Claim C10: server-side username validation in the POST handler is a
presence check only.  The handler returns the 400 "Username is required"
validation error exactly when the username field is absent or empty, and
every non-empty username of any length and character set passes
validation and (once an identity resolves) proceeds past validation and
authorization to the uniqueness checks and creation paths. -/
theorem c10_presenceCheckOnly (db : List ProfileRow) (session : Option String)
    (req : PostReq) (rpc : RpcOutcome) (ins : Except String Nat) :
    ((postCreateProfile db session req rpc ins).resp = .err 400 "Username is required"
      ↔ jsFalsyOpt req.username = true)
    ∧ (∀ uid, jsFalsyOpt req.username = false →
        resolveUserId session req.user_id = some uid →
        (postCreateProfile db session req rpc ins).resp ≠ .err 400 "Username is required"
        ∧ (postCreateProfile db session req rpc ins).resp ≠ .err 401 "Unauthorized") := by
  by_cases hf : jsFalsyOpt req.username = true
  · constructor
    · simp [postCreateProfile, hf]
    · intro uid hff
      rw [hf] at hff
      exact Bool.noConfusion hff
  · have hf' : jsFalsyOpt req.username = false := by simpa using hf
    have hne : ∀ uid, resolveUserId session req.user_id = some uid →
        (postCreateProfile db session req rpc ins).resp ≠ .err 400 "Username is required"
        ∧ (postCreateProfile db session req rpc ins).resp ≠ .err 401 "Unauthorized" := by
      intro uid hres
      by_cases hq1 :
          (singleQuery (fun r => r.username == jsToLower (req.username.getD "")) db).isSome
          = true
      · constructor <;> simp [postCreateProfile, hf', hres, hq1]
      · have hq1' :
            (singleQuery (fun r => r.username == jsToLower (req.username.getD "")) db).isSome
            = false := by simpa using hq1
        by_cases hq2 : (singleQuery (fun r => r.user_id == uid) db).isSome = true
        · constructor <;> simp [postCreateProfile, hf', hres, hq1', hq2]
        · have hq2' : (singleQuery (fun r => r.user_id == uid) db).isSome = false := by
            simpa using hq2
          cases rpc with
          | ok data =>
            cases data with
            | some pid => constructor <;> simp [postCreateProfile, hf', hres, hq1', hq2']
            | none =>
              cases ins with
              | error m => constructor <;> simp [postCreateProfile, hf', hres, hq1', hq2']
              | ok i => constructor <;> simp [postCreateProfile, hf', hres, hq1', hq2']
          | rpcErr m0 =>
            cases ins with
            | error m => constructor <;> simp [postCreateProfile, hf', hres, hq1', hq2']
            | ok i => constructor <;> simp [postCreateProfile, hf', hres, hq1', hq2']
          | thrown m0 =>
            cases ins with
            | error m => constructor <;> simp [postCreateProfile, hf', hres, hq1', hq2']
            | ok i => constructor <;> simp [postCreateProfile, hf', hres, hq1', hq2']
    constructor
    · constructor
      · intro hresp
        cases hres : resolveUserId session req.user_id with
        | none =>
          have h401 : (postCreateProfile db session req rpc ins).resp
              = .err 401 "Unauthorized" := by
            simp [postCreateProfile, hf', hres]
          rw [h401] at hresp
          exact absurd hresp (by decide)
        | some uid => exact absurd hresp (hne uid hres).1
      · intro hff
        rw [hf'] at hff
        exact Bool.noConfusion hff
    · intro uid _ hres
      exact hne uid hres

/-- Witness for C10: the username "x!" (invalid by the client's rules) is
not rejected by server-side validation. -/
theorem c10_witness :
    ((postCreateProfile [] (some "u1") ⟨some "x!", none, none⟩ (.ok (some 7)) (.ok 1)).resp
        = .err 400 "Username is required"
      ↔ jsFalsyOpt (some "x!") = true)
    ∧ ((postCreateProfile [] (some "u1") ⟨some "x!", none, none⟩ (.ok (some 7)) (.ok 1)).resp
        ≠ .err 400 "Username is required"
      ∧ (postCreateProfile [] (some "u1") ⟨some "x!", none, none⟩ (.ok (some 7)) (.ok 1)).resp
        ≠ .err 401 "Unauthorized") :=
  ⟨(c10_presenceCheckOnly [] (some "u1") ⟨some "x!", none, none⟩ (.ok (some 7)) (.ok 1)).1,
    (c10_presenceCheckOnly [] (some "u1") ⟨some "x!", none, none⟩ (.ok (some 7)) (.ok 1)).2
      "u1" (by decide) rfl⟩
